import Mathlib

/-!
Verification development for the `property_collesium` on-chain programs:
a constant-product liquidity pool (two source variants) and an ascending
auction.  Each Rust instruction processor is shallowly embedded as a pure
Lean function over the persisted record types.  Machine integers (u64/u128)
are modelled as `Nat` with an explicit `% 2 ^ 64` at every point where the
Rust code narrows a value to `u64` (the `as u64` casts and the wrapping
`u64` additions of a release build); `u128` intermediate arithmetic never
overflows for `u64` inputs, so it is modelled as exact `Nat` arithmetic.

External effects (SPL-token cross-program invocations, native lamport
moves, and the final record serialization) are modelled as an emitted
event trace.  Each fallible cross-program invocation consumes one outcome
from an `oracle : List Bool` environment; an exhausted oracle means
success.  Pubkeys are modelled as `Nat`, with `0` playing the role of
`Pubkey::default()`.  Clock and rent-exemption are inputs from the
environment, exactly as `Clock::get()` / `Rent::get()` are in the source.
-/

/-- `2 ^ 64`, the modulus of the `u64` domain. -/
def U64 : Nat := 2 ^ 64

/-- Persisted pool record of `src/solana-program/liquidity-pool/src/lib.rs`
(struct `PoolState`). -/
structure PoolState where
  is_initialized : Bool
  token_a_mint : Nat
  token_b_mint : Nat
  token_a_reserve : Nat
  token_b_reserve : Nat
  lp_mint : Nat
  lp_supply : Nat
  bump_seed : Nat
deriving DecidableEq, Repr

/-- Persisted pool record of the frontend variant
(`src/frontend/solana-program/liquidity-pool/src/lib.rs`), whose
`is_initialized` field is a `u8`. -/
structure PoolStateF where
  is_initialized : Nat
  token_a_mint : Nat
  token_b_mint : Nat
  token_a_reserve : Nat
  token_b_reserve : Nat
  lp_mint : Nat
  lp_supply : Nat
  bump_seed : Nat
deriving DecidableEq, Repr

/-- Persisted auction record of
`src/frontend/solana-program/auction/src/lib.rs` (struct `Auction`). -/
structure Auction where
  property_mint : Nat
  seller : Nat
  start_price : Nat
  current_bid : Nat
  highest_bidder : Nat
  start_time : Int
  end_time : Int
  ended : Bool
  bump_seed : Nat
deriving DecidableEq, Repr

/-- Externally observable effects of one instruction, in program order.
SPL-token effects carry the transferred amount; lamport moves additionally
carry the source and destination account keys (needed for the escrow
accounting of the auction). -/
inductive Effect
  | initializeMint
  | splTransfer (amount : Nat)
  | mintTo (amount : Nat)
  | burnTokens (amount : Nat)
  | lamportMove (source dest amount : Nat)
  | writePool (s : PoolState)
  | writePoolF (s : PoolStateF)
  | writeAuction (a : Auction)
deriving DecidableEq, Repr

/-- Whether an effect persists a record back to its account storage. -/
def Effect.isRecordWrite : Effect → Bool
  | .writePool _ => true
  | .writePoolF _ => true
  | .writeAuction _ => true
  | _ => false

/-- Consume one cross-program-invocation outcome from the environment
oracle; an exhausted oracle means the invocation succeeds. -/
def cpi : List Bool → Bool × List Bool
  | [] => (true, [])
  | b :: r => (b, r)

/-- Errors of the main-variant pool program (`LiquidityPoolError` plus the
`ProgramError` values the processors return directly).  `cpiFailure`
stands for whatever error a failed cross-program invocation propagates. -/
inductive PoolErr
  | missingRequiredSignature
  | invalidSeeds
  | cpiFailure
  | notRentExempt
  | alreadyInitialized
  | notInitialized
  | invalidTokenAAmount
  | invalidTokenBAmount
  | insufficientLiquidity
  | invalidLpTokenAmount
  | zeroReserves
deriving DecidableEq, Repr

/-- Errors of the frontend pool variant. -/
inductive PoolFErr
  | missingRequiredSignature
  | invalidSeeds
  | cpiFailure
  | notRentExempt
  | poolAlreadyInitialized
  | poolNotInitialized
  | zeroAmountNotAllowed
  | invalidAmount
  | sameTokenMints
deriving DecidableEq, Repr

/-- Errors of the auction program. -/
inductive AuctionErr
  | missingRequiredSignature
  | invalidSeeds
  | accountAlreadyInitialized
  | cpiFailure
  | notRentExempt
  | auctionAlreadyEnded
  | auctionNotEnded
  | bidTooLow
  | auctionNotStarted
  | auctionEnded
  | invalidEndTime
deriving DecidableEq, Repr

namespace MainLP

/-- Embedding of `process_initialize_pool` (main variant, lines 218-356).
`pda` is the result of `Pubkey::find_program_address`, an external
deterministic primitive supplied by the environment; `existing` is the
record currently unpacked from the pool account; `rentExempt` is the
outcome of the `Rent::get()?.is_exempt` query.  The source computes the
initial share count as `(a as f64 * b as f64).sqrt() as u64`; it is
modelled as the exact integer square root `Nat.sqrt (a * b)`, with which
the f64 computation coincides on all inputs whose product is exactly
representable (in particular all inputs used by theorems below). -/
def process_initialize_pool (initializerIsSigner : Bool) (poolStateKey pda bumpSeed : Nat)
    (existing : PoolState) (rentExempt : Bool)
    (tokenAMintKey tokenBMintKey lpMintKey : Nat)
    (initial_amount_a initial_amount_b : Nat) (oracle : List Bool) :
    List Effect × Except PoolErr PoolState :=
  if initializerIsSigner = false then ([], .error .missingRequiredSignature)
  else if pda ≠ poolStateKey then ([], .error .invalidSeeds)
  else if existing.is_initialized then ([], .error .alreadyInitialized)
  else if rentExempt = false then ([], .error .notRentExempt)
  else if initial_amount_a = 0 ∨ initial_amount_b = 0 then ([], .error .zeroReserves)
  else
    let o1 := (cpi oracle).2
    if (cpi oracle).1 = false then ([], .error .cpiFailure)
    else
      let o2 := (cpi o1).2
      if (cpi o1).1 = false then ([Effect.initializeMint], .error .cpiFailure)
      else
        let o3 := (cpi o2).2
        if (cpi o2).1 = false then
          ([Effect.initializeMint, Effect.splTransfer initial_amount_a], .error .cpiFailure)
        else
          let initial_lp_shares := Nat.sqrt (initial_amount_a * initial_amount_b)
          if (cpi o3).1 = false then
            ([Effect.initializeMint, Effect.splTransfer initial_amount_a,
              Effect.splTransfer initial_amount_b], .error .cpiFailure)
          else
            let pool : PoolState :=
              { is_initialized := true
                token_a_mint := tokenAMintKey
                token_b_mint := tokenBMintKey
                token_a_reserve := initial_amount_a
                token_b_reserve := initial_amount_b
                lp_mint := lpMintKey
                lp_supply := initial_lp_shares
                bump_seed := bumpSeed }
            ([Effect.initializeMint, Effect.splTransfer initial_amount_a,
              Effect.splTransfer initial_amount_b, Effect.mintTo initial_lp_shares,
              Effect.writePool pool], .ok pool)

/-- The share count `process_add_liquidity` computes (main variant, lines
389-401): geometric mean for an empty mint, otherwise the minimum of the
two deposit/reserve ratios, in `u128` and then cast to `u64`.  The `u128`
divisions are exact `Nat` divisions (a division by a zero reserve, which
would abort the Rust program, yields `0` here and is immediately rejected
by the `minted_shares == 0` guard). -/
def addMintedShares (pool : PoolState) (lpSupply amount_a amount_b : Nat) : Nat :=
  if lpSupply = 0 then Nat.sqrt (amount_a * amount_b)
  else
    (min (amount_a * lpSupply / pool.token_a_reserve)
         (amount_b * lpSupply / pool.token_b_reserve)) % U64

/-- Embedding of `process_add_liquidity` (main variant, lines 358-475).
`lpSupply` is the supply field of the LP mint account (the source reads it
from the mint, not from the pool record).  On success the result carries
the updated record and the number of shares minted. -/
def process_add_liquidity (providerIsSigner : Bool) (pool : PoolState) (lpSupply : Nat)
    (amount_a amount_b : Nat) (oracle : List Bool) :
    List Effect × Except PoolErr (PoolState × Nat) :=
  if providerIsSigner = false then ([], .error .missingRequiredSignature)
  else if pool.is_initialized = false then ([], .error .notInitialized)
  else if amount_a = 0 ∨ amount_b = 0 then ([], .error .zeroReserves)
  else
    let minted_shares := addMintedShares pool lpSupply amount_a amount_b
    if minted_shares = 0 then ([], .error .invalidLpTokenAmount)
    else
      let o1 := (cpi oracle).2
      if (cpi oracle).1 = false then ([], .error .cpiFailure)
      else
        let o2 := (cpi o1).2
        if (cpi o1).1 = false then ([Effect.splTransfer amount_a], .error .cpiFailure)
        else
          if (cpi o2).1 = false then
            ([Effect.splTransfer amount_a, Effect.splTransfer amount_b], .error .cpiFailure)
          else
            let pool' : PoolState :=
              { pool with
                token_a_reserve := (pool.token_a_reserve + amount_a) % U64
                token_b_reserve := (pool.token_b_reserve + amount_b) % U64
                lp_supply := (pool.lp_supply + minted_shares) % U64 }
            ([Effect.splTransfer amount_a, Effect.splTransfer amount_b,
              Effect.mintTo minted_shares, Effect.writePool pool'], .ok (pool', minted_shares))

/-- Token-A payout of `process_remove_liquidity` (line 515): computed in
`u128` then cast to `u64`. -/
def removeAmountAOut (pool : PoolState) (lpSupply lp_token_amount : Nat) : Nat :=
  (lp_token_amount * pool.token_a_reserve / lpSupply) % U64

/-- Token-B payout of `process_remove_liquidity` (line 516). -/
def removeAmountBOut (pool : PoolState) (lpSupply lp_token_amount : Nat) : Nat :=
  (lp_token_amount * pool.token_b_reserve / lpSupply) % U64

/-- Embedding of `process_remove_liquidity` (main variant, lines 477-591).
`lpSupply` is the LP mint's supply field.  On success the result carries
the updated record and the two payout amounts.  The three final `u64`
decrements of the record are modelled with truncated `Nat` subtraction;
the no-underflow claim about them is stated separately. -/
def process_remove_liquidity (providerIsSigner : Bool) (pool : PoolState) (lpSupply : Nat)
    (lp_token_amount : Nat) (oracle : List Bool) :
    List Effect × Except PoolErr (PoolState × Nat × Nat) :=
  if providerIsSigner = false then ([], .error .missingRequiredSignature)
  else if pool.is_initialized = false then ([], .error .notInitialized)
  else if lp_token_amount = 0 then ([], .error .invalidLpTokenAmount)
  else if lpSupply = 0 then ([], .error .insufficientLiquidity)
  else
    let amount_a_out := removeAmountAOut pool lpSupply lp_token_amount
    let amount_b_out := removeAmountBOut pool lpSupply lp_token_amount
    if amount_a_out = 0 ∨ amount_b_out = 0 then ([], .error .insufficientLiquidity)
    else
      let o1 := (cpi oracle).2
      if (cpi oracle).1 = false then ([], .error .cpiFailure)
      else
        let o2 := (cpi o1).2
        if (cpi o1).1 = false then ([Effect.burnTokens lp_token_amount], .error .cpiFailure)
        else
          if (cpi o2).1 = false then
            ([Effect.burnTokens lp_token_amount, Effect.splTransfer amount_a_out],
             .error .cpiFailure)
          else
            let pool' : PoolState :=
              { pool with
                token_a_reserve := pool.token_a_reserve - amount_a_out
                token_b_reserve := pool.token_b_reserve - amount_b_out
                lp_supply := pool.lp_supply - lp_token_amount }
            ([Effect.burnTokens lp_token_amount, Effect.splTransfer amount_a_out,
              Effect.splTransfer amount_b_out, Effect.writePool pool'],
             .ok (pool', amount_a_out, amount_b_out))

/-- Embedding of `process_swap_a_for_b` (main variant, lines 593-686).
`k`, `new_reserve_a` and `amount_b_out` are `u128` quantities in the
source and exact here; the `amount_b_out as u64` cast at the transfer and
at the reserve decrement is the `% U64`.  On success the result carries
the updated record and the amount of token B paid out. -/
def process_swap_a_for_b (swapperIsSigner : Bool) (pool : PoolState) (amount_a_in : Nat)
    (oracle : List Bool) : List Effect × Except PoolErr (PoolState × Nat) :=
  if swapperIsSigner = false then ([], .error .missingRequiredSignature)
  else if pool.is_initialized = false then ([], .error .notInitialized)
  else if amount_a_in = 0 then ([], .error .invalidTokenAAmount)
  else if pool.token_a_reserve = 0 ∨ pool.token_b_reserve = 0 then ([], .error .zeroReserves)
  else
    let k := pool.token_a_reserve * pool.token_b_reserve
    let new_reserve_a := pool.token_a_reserve + amount_a_in
    let amount_b_out := pool.token_b_reserve - k / new_reserve_a
    if amount_b_out = 0 then ([], .error .insufficientLiquidity)
    else
      let o1 := (cpi oracle).2
      if (cpi oracle).1 = false then ([], .error .cpiFailure)
      else
        if (cpi o1).1 = false then ([Effect.splTransfer amount_a_in], .error .cpiFailure)
        else
          let pool' : PoolState :=
            { pool with
              token_a_reserve := (pool.token_a_reserve + amount_a_in) % U64
              token_b_reserve := pool.token_b_reserve - amount_b_out % U64 }
          ([Effect.splTransfer amount_a_in, Effect.splTransfer (amount_b_out % U64),
            Effect.writePool pool'], .ok (pool', amount_b_out % U64))

/-- Embedding of `process_swap_b_for_a` (main variant, lines 688-781),
symmetric to `process_swap_a_for_b`. -/
def process_swap_b_for_a (swapperIsSigner : Bool) (pool : PoolState) (amount_b_in : Nat)
    (oracle : List Bool) : List Effect × Except PoolErr (PoolState × Nat) :=
  if swapperIsSigner = false then ([], .error .missingRequiredSignature)
  else if pool.is_initialized = false then ([], .error .notInitialized)
  else if amount_b_in = 0 then ([], .error .invalidTokenBAmount)
  else if pool.token_a_reserve = 0 ∨ pool.token_b_reserve = 0 then ([], .error .zeroReserves)
  else
    let k := pool.token_a_reserve * pool.token_b_reserve
    let new_reserve_b := pool.token_b_reserve + amount_b_in
    let amount_a_out := pool.token_a_reserve - k / new_reserve_b
    if amount_a_out = 0 then ([], .error .insufficientLiquidity)
    else
      let o1 := (cpi oracle).2
      if (cpi oracle).1 = false then ([], .error .cpiFailure)
      else
        if (cpi o1).1 = false then ([Effect.splTransfer amount_b_in], .error .cpiFailure)
        else
          let pool' : PoolState :=
            { pool with
              token_b_reserve := (pool.token_b_reserve + amount_b_in) % U64
              token_a_reserve := pool.token_a_reserve - amount_a_out % U64 }
          ([Effect.splTransfer amount_b_in, Effect.splTransfer (amount_a_out % U64),
            Effect.writePool pool'], .ok (pool', amount_a_out % U64))

end MainLP

namespace FrontLP

/-- Embedding of the frontend variant's `process_initialize_pool`
(`src/frontend/solana-program/liquidity-pool/src/lib.rs`, lines 138-297).
`existingInit` is the `is_initialized` byte of the record currently in the
pool account (a fresh account deserializes to the zeroed default).  Note:
this variant has no zero-amount check, and it mints
`initial_amount_a + initial_amount_b` LP shares — a wrapping `u64` sum. -/
def process_initialize_pool (initializerIsSigner : Bool)
    (tokenAMintKey tokenBMintKey poolStateKey pda bumpSeed : Nat)
    (existingInit : Nat) (rentExempt : Bool) (lpMintKey : Nat)
    (initial_amount_a initial_amount_b : Nat) (oracle : List Bool) :
    List Effect × Except PoolFErr PoolStateF :=
  if initializerIsSigner = false then ([], .error .missingRequiredSignature)
  else if tokenAMintKey = tokenBMintKey then ([], .error .sameTokenMints)
  else if pda ≠ poolStateKey then ([], .error .invalidSeeds)
  else if existingInit ≠ 0 then ([], .error .poolAlreadyInitialized)
  else if rentExempt = false then ([], .error .notRentExempt)
  else
    let o1 := (cpi oracle).2
    if (cpi oracle).1 = false then ([], .error .cpiFailure)
    else
      let o2 := (cpi o1).2
      if (cpi o1).1 = false then ([Effect.initializeMint], .error .cpiFailure)
      else
        let o3 := (cpi o2).2
        if (cpi o2).1 = false then
          ([Effect.initializeMint, Effect.splTransfer initial_amount_a], .error .cpiFailure)
        else
          let lpMinted := (initial_amount_a + initial_amount_b) % U64
          if (cpi o3).1 = false then
            ([Effect.initializeMint, Effect.splTransfer initial_amount_a,
              Effect.splTransfer initial_amount_b], .error .cpiFailure)
          else
            let pool : PoolStateF :=
              { is_initialized := 1
                token_a_mint := tokenAMintKey
                token_b_mint := tokenBMintKey
                token_a_reserve := initial_amount_a
                token_b_reserve := initial_amount_b
                lp_mint := lpMintKey
                lp_supply := lpMinted
                bump_seed := bumpSeed }
            ([Effect.initializeMint, Effect.splTransfer initial_amount_a,
              Effect.splTransfer initial_amount_b, Effect.mintTo lpMinted,
              Effect.writePoolF pool], .ok pool)

/-- Embedding of the frontend variant's `process_swap_a_for_b` (lines
550-649).  The output is `floor(reserve_b * amount_in / (reserve_a +
amount_in))` computed in `u128` and cast to `u64`; the zero-output check
happens only after the inbound transfer, and there is no zero-reserve
check. -/
def process_swap_a_for_b (swapperIsSigner : Bool) (pool : PoolStateF)
    (poolStateKey pda : Nat) (amount_a_in : Nat) (oracle : List Bool) :
    List Effect × Except PoolFErr (PoolStateF × Nat) :=
  if swapperIsSigner = false then ([], .error .missingRequiredSignature)
  else if pool.is_initialized = 0 then ([], .error .poolNotInitialized)
  else if amount_a_in = 0 then ([], .error .zeroAmountNotAllowed)
  else if pda ≠ poolStateKey then ([], .error .invalidSeeds)
  else
    let o1 := (cpi oracle).2
    if (cpi oracle).1 = false then ([], .error .cpiFailure)
    else
      let amount_b_out :=
        (pool.token_b_reserve * amount_a_in / (pool.token_a_reserve + amount_a_in)) % U64
      if amount_b_out = 0 then
        ([Effect.splTransfer amount_a_in], .error .invalidAmount)
      else
        if (cpi o1).1 = false then ([Effect.splTransfer amount_a_in], .error .cpiFailure)
        else
          let pool' : PoolStateF :=
            { pool with
              token_a_reserve := (pool.token_a_reserve + amount_a_in) % U64
              token_b_reserve := pool.token_b_reserve - amount_b_out }
          ([Effect.splTransfer amount_a_in, Effect.splTransfer amount_b_out,
            Effect.writePoolF pool'], .ok (pool', amount_b_out))

/-- Embedding of the frontend variant's `process_add_liquidity` (lines
300-416).  Unlike the main variant it checks the PDA, transfers both
amounts first, and only then mints `amount_a + amount_b` LP shares (a
wrapping `u64` sum, the "simple 1:1" policy) with no zero-mint guard. -/
def process_add_liquidity (providerIsSigner : Bool) (pool : PoolStateF)
    (poolStateKey pda : Nat) (amount_a amount_b : Nat) (oracle : List Bool) :
    List Effect × Except PoolFErr (PoolStateF × Nat) :=
  if providerIsSigner = false then ([], .error .missingRequiredSignature)
  else if pool.is_initialized = 0 then ([], .error .poolNotInitialized)
  else if amount_a = 0 ∨ amount_b = 0 then ([], .error .zeroAmountNotAllowed)
  else if pda ≠ poolStateKey then ([], .error .invalidSeeds)
  else
    let o1 := (cpi oracle).2
    if (cpi oracle).1 = false then ([], .error .cpiFailure)
    else
      let o2 := (cpi o1).2
      if (cpi o1).1 = false then ([Effect.splTransfer amount_a], .error .cpiFailure)
      else
        let lp_tokens_to_mint := (amount_a + amount_b) % U64
        if (cpi o2).1 = false then
          ([Effect.splTransfer amount_a, Effect.splTransfer amount_b], .error .cpiFailure)
        else
          let pool' : PoolStateF :=
            { pool with
              token_a_reserve := (pool.token_a_reserve + amount_a) % U64
              token_b_reserve := (pool.token_b_reserve + amount_b) % U64
              lp_supply := (pool.lp_supply + lp_tokens_to_mint) % U64 }
          ([Effect.splTransfer amount_a, Effect.splTransfer amount_b,
            Effect.mintTo lp_tokens_to_mint, Effect.writePoolF pool'],
           .ok (pool', lp_tokens_to_mint))

/-- Embedding of the frontend variant's `process_remove_liquidity` (lines
419-547).  It burns first, then computes both proportional payouts from
the *record's* `lp_supply` field (a division by a zero recorded supply,
which would abort the Rust program, yields `0` here), with no zero-payout
guard, then transfers and decrements. -/
def process_remove_liquidity (providerIsSigner : Bool) (pool : PoolStateF)
    (poolStateKey pda : Nat) (lp_token_amount : Nat) (oracle : List Bool) :
    List Effect × Except PoolFErr (PoolStateF × Nat × Nat) :=
  if providerIsSigner = false then ([], .error .missingRequiredSignature)
  else if pool.is_initialized = 0 then ([], .error .poolNotInitialized)
  else if lp_token_amount = 0 then ([], .error .zeroAmountNotAllowed)
  else if pda ≠ poolStateKey then ([], .error .invalidSeeds)
  else
    let o1 := (cpi oracle).2
    if (cpi oracle).1 = false then ([], .error .cpiFailure)
    else
      let amount_a_to_return :=
        (lp_token_amount * pool.token_a_reserve / pool.lp_supply) % U64
      let amount_b_to_return :=
        (lp_token_amount * pool.token_b_reserve / pool.lp_supply) % U64
      let o2 := (cpi o1).2
      if (cpi o1).1 = false then
        ([Effect.burnTokens lp_token_amount], .error .cpiFailure)
      else
        if (cpi o2).1 = false then
          ([Effect.burnTokens lp_token_amount, Effect.splTransfer amount_a_to_return],
           .error .cpiFailure)
        else
          let pool' : PoolStateF :=
            { pool with
              token_a_reserve := pool.token_a_reserve - amount_a_to_return
              token_b_reserve := pool.token_b_reserve - amount_b_to_return
              lp_supply := pool.lp_supply - lp_token_amount }
          ([Effect.burnTokens lp_token_amount, Effect.splTransfer amount_a_to_return,
            Effect.splTransfer amount_b_to_return, Effect.writePoolF pool'],
           .ok (pool', amount_a_to_return, amount_b_to_return))

/-- Embedding of the frontend variant's `process_swap_b_for_a` (lines
652-751), the mirror image of its `process_swap_a_for_b`. -/
def process_swap_b_for_a (swapperIsSigner : Bool) (pool : PoolStateF)
    (poolStateKey pda : Nat) (amount_b_in : Nat) (oracle : List Bool) :
    List Effect × Except PoolFErr (PoolStateF × Nat) :=
  if swapperIsSigner = false then ([], .error .missingRequiredSignature)
  else if pool.is_initialized = 0 then ([], .error .poolNotInitialized)
  else if amount_b_in = 0 then ([], .error .zeroAmountNotAllowed)
  else if pda ≠ poolStateKey then ([], .error .invalidSeeds)
  else
    let o1 := (cpi oracle).2
    if (cpi oracle).1 = false then ([], .error .cpiFailure)
    else
      let amount_a_out :=
        (pool.token_a_reserve * amount_b_in / (pool.token_b_reserve + amount_b_in)) % U64
      if amount_a_out = 0 then
        ([Effect.splTransfer amount_b_in], .error .invalidAmount)
      else
        if (cpi o1).1 = false then ([Effect.splTransfer amount_b_in], .error .cpiFailure)
        else
          let pool' : PoolStateF :=
            { pool with
              token_b_reserve := (pool.token_b_reserve + amount_b_in) % U64
              token_a_reserve := pool.token_a_reserve - amount_a_out }
          ([Effect.splTransfer amount_b_in, Effect.splTransfer amount_a_out,
            Effect.writePoolF pool'], .ok (pool', amount_a_out))

end FrontLP

namespace AuctionProg

/-- Embedding of `process_initialize_auction`
(`src/frontend/solana-program/auction/src/lib.rs`, lines 115-169).
`dataLen` is the byte length of the auction account's data (a record
already occupies the address when it is nonzero), `now` the clock
reading. -/
def process_initialize_auction (sellerIsSigner : Bool)
    (sellerKey auctionKey propertyMintKey pda bumpSeed : Nat)
    (dataLen : Nat) (rentExempt : Bool) (now : Int)
    (start_price : Nat) (end_time : Int) :
    List Effect × Except AuctionErr Auction :=
  if sellerIsSigner = false then ([], .error .missingRequiredSignature)
  else if pda ≠ auctionKey then ([], .error .invalidSeeds)
  else if 0 < dataLen then ([], .error .accountAlreadyInitialized)
  else if rentExempt = false then ([], .error .notRentExempt)
  else if end_time ≤ now then ([], .error .invalidEndTime)
  else
    let auction : Auction :=
      { property_mint := propertyMintKey
        seller := sellerKey
        start_price := start_price
        current_bid := start_price
        highest_bidder := 0
        start_time := now
        end_time := end_time
        ended := false
        bump_seed := bumpSeed }
    ([Effect.writeAuction auction], .ok auction)

/-- Embedding of `process_place_bid` (lines 172-229).  `escrow` is the
net amount of lamports the module has moved into the auction account (the
account's balance above its rent deposit); the inbound system transfer is
a fallible cross-program invocation, while the refund is a direct pair of
lamport mutations that the runtime cannot fail (borrow errors aside).
On success the result carries the updated record and escrow. -/
def process_place_bid (bidderIsSigner : Bool)
    (bidderKey auctionKey prevBidderRefundKey : Nat)
    (auction : Auction) (escrow : Nat) (now : Int) (bid_amount : Nat)
    (oracle : List Bool) :
    List Effect × Except AuctionErr (Auction × Nat) :=
  if bidderIsSigner = false then ([], .error .missingRequiredSignature)
  else if auction.ended then ([], .error .auctionAlreadyEnded)
  else if now < auction.start_time then ([], .error .auctionNotStarted)
  else if auction.end_time ≤ now then ([], .error .auctionEnded)
  else if bid_amount ≤ auction.current_bid then ([], .error .bidTooLow)
  else
    if (cpi oracle).1 = false then ([], .error .cpiFailure)
    else
      let inbound := Effect.lamportMove bidderKey auctionKey bid_amount
      let escrow1 := escrow + bid_amount
      let a' : Auction := { auction with current_bid := bid_amount, highest_bidder := bidderKey }
      if auction.highest_bidder ≠ 0 then
        ([inbound, Effect.lamportMove auctionKey prevBidderRefundKey auction.current_bid,
          Effect.writeAuction a'], .ok (a', escrow1 - auction.current_bid))
      else
        ([inbound, Effect.writeAuction a'], .ok (a', escrow1))

/-- Embedding of `process_end_auction` (lines 232-314).  The source never
reads the seller handle's `is_signer` flag, so `sellerIsSigner` is an
argument the embedded transition ignores, exactly as the code does; the
only authorization check is the key comparison against the recorded
seller, and it happens after the lifecycle checks.  The property-token
transfer is a fallible cross-program invocation; the lamport payout to
the seller is a direct mutation. -/
def process_end_auction (sellerIsSigner : Bool)
    (sellerKey auctionKey sellerSolKey : Nat)
    (auction : Auction) (escrow : Nat) (now : Int) (oracle : List Bool) :
    List Effect × Except AuctionErr (Auction × Nat) :=
  if auction.ended then ([], .error .auctionAlreadyEnded)
  else if now < auction.end_time then ([], .error .auctionNotEnded)
  else if sellerKey ≠ auction.seller then ([], .error .missingRequiredSignature)
  else if auction.highest_bidder ≠ 0 then
    let payout := Effect.lamportMove auctionKey sellerSolKey auction.current_bid
    let escrow' := escrow - auction.current_bid
    if (cpi oracle).1 = false then ([payout], .error .cpiFailure)
    else
      let a' : Auction := { auction with ended := true }
      ([payout, Effect.splTransfer 1, Effect.writeAuction a'], .ok (a', escrow'))
  else
    if (cpi oracle).1 = false then ([], .error .cpiFailure)
    else
      let a' : Auction := { auction with ended := true }
      ([Effect.splTransfer 1, Effect.writeAuction a'], .ok (a', escrow))

end AuctionProg

/-! ### General-purpose lemmas about the embedded processors -/

@[simp] lemma exceptIsOk_ok {ε α : Type} (a : α) : (Except.ok a : Except ε α).isOk = true := rfl

@[simp] lemma exceptIsOk_error {ε α : Type} (e : ε) :
    (Except.error e : Except ε α).isOk = false := rfl

lemma initPool_no_write_on_failure (sig : Bool) (psk pda bs : Nat) (ex : PoolState)
    (re : Bool) (ka kb kl a b : Nat) (o : List Bool) (tr : List Effect)
    (res : Except PoolErr PoolState)
    (h : MainLP.process_initialize_pool sig psk pda bs ex re ka kb kl a b o = (tr, res)) :
    res.isOk = true ∨ ∀ e ∈ tr, e.isRecordWrite = false := by
  simp only [MainLP.process_initialize_pool] at h
  split_ifs at h <;>
    (injection h with h1 h2; subst h1; subst h2; simp [Effect.isRecordWrite])

lemma addLiq_no_write_on_failure (sig : Bool) (pool : PoolState) (S a b : Nat)
    (o : List Bool) (tr : List Effect) (res : Except PoolErr (PoolState × Nat))
    (h : MainLP.process_add_liquidity sig pool S a b o = (tr, res)) :
    res.isOk = true ∨ ∀ e ∈ tr, e.isRecordWrite = false := by
  simp only [MainLP.process_add_liquidity] at h
  split_ifs at h <;>
    (injection h with h1 h2; subst h1; subst h2; simp [Effect.isRecordWrite])

lemma removeLiq_no_write_on_failure (sig : Bool) (pool : PoolState) (S lp : Nat)
    (o : List Bool) (tr : List Effect) (res : Except PoolErr (PoolState × Nat × Nat))
    (h : MainLP.process_remove_liquidity sig pool S lp o = (tr, res)) :
    res.isOk = true ∨ ∀ e ∈ tr, e.isRecordWrite = false := by
  simp only [MainLP.process_remove_liquidity] at h
  split_ifs at h <;>
    (injection h with h1 h2; subst h1; subst h2; simp [Effect.isRecordWrite])

lemma swapA_no_write_on_failure (sig : Bool) (pool : PoolState) (ain : Nat)
    (o : List Bool) (tr : List Effect) (res : Except PoolErr (PoolState × Nat))
    (h : MainLP.process_swap_a_for_b sig pool ain o = (tr, res)) :
    res.isOk = true ∨ ∀ e ∈ tr, e.isRecordWrite = false := by
  simp only [MainLP.process_swap_a_for_b] at h
  split_ifs at h <;>
    (injection h with h1 h2; subst h1; subst h2; simp [Effect.isRecordWrite])

lemma swapB_no_write_on_failure (sig : Bool) (pool : PoolState) (bin : Nat)
    (o : List Bool) (tr : List Effect) (res : Except PoolErr (PoolState × Nat))
    (h : MainLP.process_swap_b_for_a sig pool bin o = (tr, res)) :
    res.isOk = true ∨ ∀ e ∈ tr, e.isRecordWrite = false := by
  simp only [MainLP.process_swap_b_for_a] at h
  split_ifs at h <;>
    (injection h with h1 h2; subst h1; subst h2; simp [Effect.isRecordWrite])

lemma initPoolF_no_write_on_failure (sig : Bool) (ka kb psk pda bs exi : Nat) (re : Bool)
    (kl a b : Nat) (o : List Bool) (tr : List Effect) (res : Except PoolFErr PoolStateF)
    (h : FrontLP.process_initialize_pool sig ka kb psk pda bs exi re kl a b o = (tr, res)) :
    res.isOk = true ∨ ∀ e ∈ tr, e.isRecordWrite = false := by
  simp only [FrontLP.process_initialize_pool] at h
  split_ifs at h <;>
    (injection h with h1 h2; subst h1; subst h2; simp [Effect.isRecordWrite])

lemma swapAF_no_write_on_failure (sig : Bool) (pool : PoolStateF) (psk pda ain : Nat)
    (o : List Bool) (tr : List Effect) (res : Except PoolFErr (PoolStateF × Nat))
    (h : FrontLP.process_swap_a_for_b sig pool psk pda ain o = (tr, res)) :
    res.isOk = true ∨ ∀ e ∈ tr, e.isRecordWrite = false := by
  simp only [FrontLP.process_swap_a_for_b] at h
  split_ifs at h <;>
    (injection h with h1 h2; subst h1; subst h2; simp [Effect.isRecordWrite])

lemma addLiqF_no_write_on_failure (sig : Bool) (pool : PoolStateF) (psk pda a b : Nat)
    (o : List Bool) (tr : List Effect) (res : Except PoolFErr (PoolStateF × Nat))
    (h : FrontLP.process_add_liquidity sig pool psk pda a b o = (tr, res)) :
    res.isOk = true ∨ ∀ e ∈ tr, e.isRecordWrite = false := by
  simp only [FrontLP.process_add_liquidity] at h
  split_ifs at h <;>
    (injection h with h1 h2; subst h1; subst h2; simp [Effect.isRecordWrite])

lemma removeLiqF_no_write_on_failure (sig : Bool) (pool : PoolStateF) (psk pda lp : Nat)
    (o : List Bool) (tr : List Effect) (res : Except PoolFErr (PoolStateF × Nat × Nat))
    (h : FrontLP.process_remove_liquidity sig pool psk pda lp o = (tr, res)) :
    res.isOk = true ∨ ∀ e ∈ tr, e.isRecordWrite = false := by
  simp only [FrontLP.process_remove_liquidity] at h
  split_ifs at h <;>
    (injection h with h1 h2; subst h1; subst h2; simp [Effect.isRecordWrite])

lemma swapBF_no_write_on_failure (sig : Bool) (pool : PoolStateF) (psk pda bin : Nat)
    (o : List Bool) (tr : List Effect) (res : Except PoolFErr (PoolStateF × Nat))
    (h : FrontLP.process_swap_b_for_a sig pool psk pda bin o = (tr, res)) :
    res.isOk = true ∨ ∀ e ∈ tr, e.isRecordWrite = false := by
  simp only [FrontLP.process_swap_b_for_a] at h
  split_ifs at h <;>
    (injection h with h1 h2; subst h1; subst h2; simp [Effect.isRecordWrite])

lemma initAuction_no_write_on_failure (sig : Bool) (sk ak pk pda bs dl : Nat) (re : Bool)
    (now : Int) (sp : Nat) (et : Int) (tr : List Effect) (res : Except AuctionErr Auction)
    (h : AuctionProg.process_initialize_auction sig sk ak pk pda bs dl re now sp et
          = (tr, res)) :
    res.isOk = true ∨ ∀ e ∈ tr, e.isRecordWrite = false := by
  simp only [AuctionProg.process_initialize_auction] at h
  split_ifs at h <;>
    (injection h with h1 h2; subst h1; subst h2; simp [Effect.isRecordWrite])

lemma placeBid_no_write_on_failure (sig : Bool) (bk ak rk : Nat) (a : Auction) (esc : Nat)
    (now : Int) (bid : Nat) (o : List Bool) (tr : List Effect)
    (res : Except AuctionErr (Auction × Nat))
    (h : AuctionProg.process_place_bid sig bk ak rk a esc now bid o = (tr, res)) :
    res.isOk = true ∨ ∀ e ∈ tr, e.isRecordWrite = false := by
  simp only [AuctionProg.process_place_bid] at h
  split_ifs at h <;>
    (injection h with h1 h2; subst h1; subst h2; simp [Effect.isRecordWrite])

lemma endAuction_no_write_on_failure (sig : Bool) (sk ak sk2 : Nat) (a : Auction)
    (esc : Nat) (now : Int) (o : List Bool) (tr : List Effect)
    (res : Except AuctionErr (Auction × Nat))
    (h : AuctionProg.process_end_auction sig sk ak sk2 a esc now o = (tr, res)) :
    res.isOk = true ∨ ∀ e ∈ tr, e.isRecordWrite = false := by
  simp only [AuctionProg.process_end_auction] at h
  split_ifs at h <;>
    (injection h with h1 h2; subst h1; subst h2; simp [Effect.isRecordWrite])

/-- Success inversion for `process_remove_liquidity`: a successful removal
passed every guard and returns exactly the two proportional payouts and
the decremented record. -/
lemma removeLiq_ok_inv (sig : Bool) (pool : PoolState) (S lp : Nat) (o : List Bool)
    (r : PoolState × Nat × Nat)
    (h : (MainLP.process_remove_liquidity sig pool S lp o).2 = .ok r) :
    pool.is_initialized = true ∧ lp ≠ 0 ∧ S ≠ 0 ∧
    MainLP.removeAmountAOut pool S lp ≠ 0 ∧ MainLP.removeAmountBOut pool S lp ≠ 0 ∧
    r = ({ pool with
            token_a_reserve := pool.token_a_reserve - MainLP.removeAmountAOut pool S lp,
            token_b_reserve := pool.token_b_reserve - MainLP.removeAmountBOut pool S lp,
            lp_supply := pool.lp_supply - lp },
         MainLP.removeAmountAOut pool S lp, MainLP.removeAmountBOut pool S lp) := by
  simp only [MainLP.process_remove_liquidity] at h
  split_ifs at h <;> simp_all

/-- Success inversion for `process_add_liquidity`. -/
lemma addLiq_ok_inv (sig : Bool) (pool : PoolState) (S a b : Nat) (o : List Bool)
    (r : PoolState × Nat)
    (h : (MainLP.process_add_liquidity sig pool S a b o).2 = .ok r) :
    pool.is_initialized = true ∧ a ≠ 0 ∧ b ≠ 0 ∧
    MainLP.addMintedShares pool S a b ≠ 0 ∧
    r = ({ pool with
            token_a_reserve := (pool.token_a_reserve + a) % U64,
            token_b_reserve := (pool.token_b_reserve + b) % U64,
            lp_supply := (pool.lp_supply + MainLP.addMintedShares pool S a b) % U64 },
         MainLP.addMintedShares pool S a b) := by
  simp only [MainLP.process_add_liquidity] at h
  split_ifs at h <;> simp_all

/-- Success inversion for `process_place_bid`: every guard passed, the
record now carries the new bid and bidder, the escrow grew by the bid and
shrank by the refunded previous bid, and the trace shows the inbound
transfer, the refund (when a previous bidder exists) and the final record
write, in program order. -/
lemma placeBid_ok_inv (sig : Bool) (bk ak rk : Nat) (a : Auction) (esc : Nat) (now : Int)
    (bid : Nat) (o : List Bool) (r : Auction × Nat)
    (h : (AuctionProg.process_place_bid sig bk ak rk a esc now bid o).2 = .ok r) :
    a.ended = false ∧ a.current_bid < bid ∧
    r = ({ a with current_bid := bid, highest_bidder := bk },
         if a.highest_bidder ≠ 0 then esc + bid - a.current_bid else esc + bid) ∧
    (AuctionProg.process_place_bid sig bk ak rk a esc now bid o).1 =
      if a.highest_bidder ≠ 0 then
        [Effect.lamportMove bk ak bid, Effect.lamportMove ak rk a.current_bid,
         Effect.writeAuction { a with current_bid := bid, highest_bidder := bk }]
      else
        [Effect.lamportMove bk ak bid,
         Effect.writeAuction { a with current_bid := bid, highest_bidder := bk }] := by
  simp only [AuctionProg.process_place_bid] at h ⊢
  split_ifs at h ⊢ <;> simp_all

/-- A successful `process_end_auction` leaves the record ended. -/
lemma endAuction_ok_inv (sig : Bool) (sk ak sk2 : Nat) (a : Auction) (esc : Nat)
    (now : Int) (o : List Bool) (r : Auction × Nat)
    (h : (AuctionProg.process_end_auction sig sk ak sk2 a esc now o).2 = .ok r) :
    r.1.ended = true := by
  simp only [AuctionProg.process_end_auction] at h
  split_ifs at h <;> simp_all <;> rw [← h]

/-- The escrow invariant of the auction: while the auction is live, the
lamports the module holds at the auction account (above rent) are zero
when no bid has landed and exactly the recorded highest bid otherwise. -/
def escrowInv (a : Auction) (escrow : Nat) : Prop :=
  a.ended = false → (if a.highest_bidder = 0 then escrow = 0 else escrow = a.current_bid)

/-- Key division fact behind the no-free-mint property: removing `lp` of
`S` outstanding shares pays `a = lp * ra / S`, and re-depositing `a`
against the shrunken reserve `ra - a` and supply `S - lp` rates at most
`lp` new shares. -/
lemma readd_ratio_le (ra S lp : Nat) (hS : 0 < S) (hlt : lp < S) (hra : 0 < ra) :
    (lp * ra / S) * (S - lp) / (ra - lp * ra / S) ≤ lp := by
  have h1 : (lp * ra / S) * S ≤ lp * ra := Nat.div_mul_le_self _ _
  have h2 : lp * ra / S < ra := by
    rw [Nat.div_lt_iff_lt_mul hS]
    have := (Nat.mul_lt_mul_right hra).mpr hlt
    calc lp * ra = ra * lp := Nat.mul_comm _ _
      _ < ra * S := (Nat.mul_lt_mul_left hra).mpr hlt
      _ = ra * S := rfl
  have key : (lp * ra / S) * (S - lp) ≤ lp * (ra - lp * ra / S) := by
    have hles : lp ≤ S := Nat.le_of_lt hlt
    have hlea : lp * ra / S ≤ ra := Nat.le_of_lt h2
    zify [hles, hlea]
    zify at h1
    nlinarith [h1]
  calc (lp * ra / S) * (S - lp) / (ra - lp * ra / S)
      ≤ lp * (ra - lp * ra / S) / (ra - lp * ra / S) := Nat.div_le_div_right key
    _ = lp := Nat.mul_div_cancel _ (Nat.sub_pos_of_lt h2)

/-! ### Claim theorems -/

/-- C1.  The claim states that for every successful swap the product of
the reserves never decreases and the integer truncation rounds in the
pool's favor.  The code computes `amount_out = reserve_out - floor(k /
(reserve_in + amount_in))`, which rounds the *output up*: at reserves
(1000, 4000) a `SwapAforB` of 100 succeeds, pays out 364 (strictly more
than the exact real-valued solution 400000/1100 ≈ 363.64), and the
recorded reserve product drops from 4000000 to 1100 * 3636 = 3999600.
This theorem evaluates the embedded swap at that failing input. -/
theorem c1_swap_product_decreases_at_failing_input :
    (MainLP.process_swap_a_for_b true
      { is_initialized := true, token_a_mint := 1, token_b_mint := 2,
        token_a_reserve := 1000, token_b_reserve := 4000, lp_mint := 3,
        lp_supply := 2000, bump_seed := 255 } 100 [true, true]).2 =
      .ok ({ is_initialized := true, token_a_mint := 1, token_b_mint := 2,
             token_a_reserve := 1100, token_b_reserve := 3636, lp_mint := 3,
             lp_supply := 2000, bump_seed := 255 }, 364)
    ∧ 1100 * 3636 < 1000 * 4000
    ∧ 364 * (1000 + 100) > 4000 * 100 := by
  refine ⟨rfl, by norm_num, by norm_num⟩

/-- C2 (counterexample).  The claim asserts that *every* swap pays
`reserve_out - floor(reserve_in * reserve_out / (reserve_in + amount_in))`
and in particular pays 364 for `amount_in = 100` against reserves
(1000, 4000).  The frontend pool variant's `process_swap_a_for_b`
instead pays `floor(reserve_out * amount_in / (reserve_in + amount_in))`,
which at the very same input is 363, not `4000 - floor(4000000/1100) = 364`. -/
theorem c2_frontend_swap_pays_floor_counterexample :
    (FrontLP.process_swap_a_for_b true
      { is_initialized := 1, token_a_mint := 1, token_b_mint := 2,
        token_a_reserve := 1000, token_b_reserve := 4000, lp_mint := 3,
        lp_supply := 5000, bump_seed := 255 } 7 7 100 [true, true]).2 =
      .ok ({ is_initialized := 1, token_a_mint := 1, token_b_mint := 2,
             token_a_reserve := 1100, token_b_reserve := 3637, lp_mint := 3,
             lp_supply := 5000, bump_seed := 255 }, 363)
    ∧ 363 ≠ 4000 - 1000 * 4000 / (1000 + 100) := by
  refine ⟨rfl, by norm_num⟩

/-- C2 (amended to the main, `src/solana-program`, pool variant).  For a
signed swap on an initialized pool with nonzero reserves and nonzero
input, the swap errors exactly when `reserve_out - floor(reserve_in *
reserve_out / (reserve_in + amount_in))` is zero, any successful swap
pays exactly that amount, and the reserve product indeed fits in 128
bits for u64-sized reserves. -/
theorem c2_swap_pays_constant_product_output (pool : PoolState) (ain : Nat) (o : List Bool)
    (hinit : pool.is_initialized = true) (hra : pool.token_a_reserve ≠ 0)
    (hrb : pool.token_b_reserve ≠ 0) (hain : ain ≠ 0)
    (hraB : pool.token_a_reserve < U64) (hrbB : pool.token_b_reserve < U64) :
    (pool.token_b_reserve
        - pool.token_a_reserve * pool.token_b_reserve / (pool.token_a_reserve + ain) = 0 →
      (MainLP.process_swap_a_for_b true pool ain o).2
        = .error PoolErr.insufficientLiquidity)
    ∧ (∀ r, (MainLP.process_swap_a_for_b true pool ain o).2 = .ok r →
        r.2 = pool.token_b_reserve
          - pool.token_a_reserve * pool.token_b_reserve / (pool.token_a_reserve + ain))
    ∧ pool.token_a_reserve * pool.token_b_reserve < 2 ^ 128 := by
  refine ⟨?_, ?_, ?_⟩
  · intro h0
    simp only [MainLP.process_swap_a_for_b]
    simp [hinit, hra, hrb, hain, h0]
  · intro r h
    have hle : pool.token_b_reserve
        - pool.token_a_reserve * pool.token_b_reserve / (pool.token_a_reserve + ain)
        < U64 := lt_of_le_of_lt (Nat.sub_le _ _) hrbB
    simp only [MainLP.process_swap_a_for_b] at h
    split_ifs at h <;> simp_all [Nat.mod_eq_of_lt hle] <;> rw [← h]
  · have := mul_lt_mul'' hraB hrbB (Nat.zero_le _) (Nat.zero_le _)
    calc pool.token_a_reserve * pool.token_b_reserve < U64 * U64 := this
      _ = 2 ^ 128 := by norm_num [U64]

/-- C3.  The claim states `EndAuction` requires the first handle to hold
the recorded seller key *and* to have signed.  The source checks only the
key and never reads `is_signer`: with the correct seller key supplied
unsigned, settlement succeeds and mutates the record (first conjunct);
the key check itself does hold (second conjunct). -/
theorem c3_end_auction_ignores_signer_flag :
    (AuctionProg.process_end_auction false 5 20 21
      { property_mint := 9, seller := 5, start_price := 100, current_bid := 150,
        highest_bidder := 11, start_time := 0, end_time := 1000, ended := false,
        bump_seed := 254 } 150 1000 [true]).2 =
      .ok ({ property_mint := 9, seller := 5, start_price := 100, current_bid := 150,
             highest_bidder := 11, start_time := 0, end_time := 1000, ended := true,
             bump_seed := 254 }, 0)
    ∧ (AuctionProg.process_end_auction true 6 20 21
      { property_mint := 9, seller := 5, start_price := 100, current_bid := 150,
        highest_bidder := 11, start_time := 0, end_time := 1000, ended := false,
        bump_seed := 254 } 150 1000 [true]).2 =
      .error AuctionErr.missingRequiredSignature := by
  refine ⟨rfl, rfl⟩

/-- C4.  The claim states an initialized pool's reserves stay strictly
positive because a swap whose output is the full opposite reserve is
rejected.  No such rejection exists: at reserves (1, 1) a `SwapAforB`
of 1 passes the `amount_out == 0` guard with `amount_out = 1` — the whole
of reserve B — and succeeds, leaving reserves (2, 0): one side exactly
zero while the other is nonzero. -/
theorem c4_swap_drains_full_reserve_at_failing_input :
    (MainLP.process_swap_a_for_b true
      { is_initialized := true, token_a_mint := 1, token_b_mint := 2,
        token_a_reserve := 1, token_b_reserve := 1, lp_mint := 3,
        lp_supply := 1, bump_seed := 255 } 1 [true, true]).2 =
      .ok ({ is_initialized := true, token_a_mint := 1, token_b_mint := 2,
             token_a_reserve := 2, token_b_reserve := 0, lp_mint := 3,
             lp_supply := 1, bump_seed := 255 }, 1)
    ∧ (0 : Nat) < 2 := by
  refine ⟨rfl, by norm_num⟩

/-- C5.  For every instruction of either state machine — all five
main-variant pool processors, all five frontend-variant pool processors,
and all three auction processors — the record write is the last effect of
the success path only: whenever an instruction fails — in particular
whenever any of its sub-transfers fails — the emitted effect trace
contains no record write, so no record mutation is persisted.  One
conjunct per processor of the repository. -/
theorem c5_record_write_only_after_all_transfers :
    (∀ sig psk pda bs ex re ka kb kl a b o tr err,
        MainLP.process_initialize_pool sig psk pda bs ex re ka kb kl a b o
          = (tr, .error err) →
        ∀ e ∈ tr, e.isRecordWrite = false)
    ∧ (∀ sig pool S a b o tr err,
        MainLP.process_add_liquidity sig pool S a b o = (tr, .error err) →
        ∀ e ∈ tr, e.isRecordWrite = false)
    ∧ (∀ sig pool S lp o tr err,
        MainLP.process_remove_liquidity sig pool S lp o = (tr, .error err) →
        ∀ e ∈ tr, e.isRecordWrite = false)
    ∧ (∀ sig pool ain o tr err,
        MainLP.process_swap_a_for_b sig pool ain o = (tr, .error err) →
        ∀ e ∈ tr, e.isRecordWrite = false)
    ∧ (∀ sig pool bin o tr err,
        MainLP.process_swap_b_for_a sig pool bin o = (tr, .error err) →
        ∀ e ∈ tr, e.isRecordWrite = false)
    ∧ (∀ sig ka kb psk pda bs exi re kl a b o tr err,
        FrontLP.process_initialize_pool sig ka kb psk pda bs exi re kl a b o
          = (tr, .error err) →
        ∀ e ∈ tr, e.isRecordWrite = false)
    ∧ (∀ sig pool psk pda ain o tr err,
        FrontLP.process_swap_a_for_b sig pool psk pda ain o = (tr, .error err) →
        ∀ e ∈ tr, e.isRecordWrite = false)
    ∧ (∀ sig pool psk pda a b o tr err,
        FrontLP.process_add_liquidity sig pool psk pda a b o = (tr, .error err) →
        ∀ e ∈ tr, e.isRecordWrite = false)
    ∧ (∀ sig pool psk pda lp o tr err,
        FrontLP.process_remove_liquidity sig pool psk pda lp o = (tr, .error err) →
        ∀ e ∈ tr, e.isRecordWrite = false)
    ∧ (∀ sig pool psk pda bin o tr err,
        FrontLP.process_swap_b_for_a sig pool psk pda bin o = (tr, .error err) →
        ∀ e ∈ tr, e.isRecordWrite = false)
    ∧ (∀ sig sk ak pk pda bs dl re now sp et tr err,
        AuctionProg.process_initialize_auction sig sk ak pk pda bs dl re now sp et
          = (tr, .error err) →
        ∀ e ∈ tr, e.isRecordWrite = false)
    ∧ (∀ sig bk ak rk a esc now bid o tr err,
        AuctionProg.process_place_bid sig bk ak rk a esc now bid o = (tr, .error err) →
        ∀ e ∈ tr, e.isRecordWrite = false)
    ∧ (∀ sig sk ak sk2 a esc now o tr err,
        AuctionProg.process_end_auction sig sk ak sk2 a esc now o = (tr, .error err) →
        ∀ e ∈ tr, e.isRecordWrite = false) := by
  refine ⟨?_, ?_, ?_, ?_, ?_, ?_, ?_, ?_, ?_, ?_, ?_, ?_, ?_⟩
  · intro sig psk pda bs ex re ka kb kl a b o tr err h
    exact (initPool_no_write_on_failure sig psk pda bs ex re ka kb kl a b o tr _ h).resolve_left
      (by simp)
  · intro sig pool S a b o tr err h
    exact (addLiq_no_write_on_failure sig pool S a b o tr _ h).resolve_left (by simp)
  · intro sig pool S lp o tr err h
    exact (removeLiq_no_write_on_failure sig pool S lp o tr _ h).resolve_left (by simp)
  · intro sig pool ain o tr err h
    exact (swapA_no_write_on_failure sig pool ain o tr _ h).resolve_left (by simp)
  · intro sig pool bin o tr err h
    exact (swapB_no_write_on_failure sig pool bin o tr _ h).resolve_left (by simp)
  · intro sig ka kb psk pda bs exi re kl a b o tr err h
    exact (initPoolF_no_write_on_failure sig ka kb psk pda bs exi re kl a b o tr _
      h).resolve_left (by simp)
  · intro sig pool psk pda ain o tr err h
    exact (swapAF_no_write_on_failure sig pool psk pda ain o tr _ h).resolve_left (by simp)
  · intro sig pool psk pda a b o tr err h
    exact (addLiqF_no_write_on_failure sig pool psk pda a b o tr _ h).resolve_left (by simp)
  · intro sig pool psk pda lp o tr err h
    exact (removeLiqF_no_write_on_failure sig pool psk pda lp o tr _ h).resolve_left
      (by simp)
  · intro sig pool psk pda bin o tr err h
    exact (swapBF_no_write_on_failure sig pool psk pda bin o tr _ h).resolve_left (by simp)
  · intro sig sk ak pk pda bs dl re now sp et tr err h
    exact (initAuction_no_write_on_failure sig sk ak pk pda bs dl re now sp et tr _
      h).resolve_left (by simp)
  · intro sig bk ak rk a esc now bid o tr err h
    exact (placeBid_no_write_on_failure sig bk ak rk a esc now bid o tr _ h).resolve_left
      (by simp)
  · intro sig sk ak sk2 a esc now o tr err h
    exact (endAuction_no_write_on_failure sig sk ak sk2 a esc now o tr _ h).resolve_left
      (by simp)

/-- Witness for C5: a swap whose second (outbound) transfer fails emits
the inbound transfer effect but no record write. -/
theorem c5_record_write_only_after_all_transfers_witness :
    MainLP.process_swap_a_for_b true
      { is_initialized := true, token_a_mint := 1, token_b_mint := 2,
        token_a_reserve := 1000, token_b_reserve := 4000, lp_mint := 3,
        lp_supply := 2000, bump_seed := 255 } 100 [true, false]
      = ([Effect.splTransfer 100], .error PoolErr.cpiFailure)
    ∧ ∀ e ∈ [Effect.splTransfer 100], e.isRecordWrite = false :=
  ⟨rfl, c5_record_write_only_after_all_transfers.2.2.2.1 true
    { is_initialized := true, token_a_mint := 1, token_b_mint := 2,
      token_a_reserve := 1000, token_b_reserve := 4000, lp_mint := 3,
      lp_supply := 2000, bump_seed := 255 } 100 [true, false]
    [Effect.splTransfer 100] PoolErr.cpiFailure rfl⟩

/-- C6.  The claim states every successful `InitializePool` with nonzero
amounts mints exactly `floor(sqrt(amount_a * amount_b))` shares, 2000 for
(1000, 4000).  The frontend variant instead mints and records
`amount_a + amount_b = 5000` shares at that very input (first conjunct),
while the main variant does produce 2000 (second conjunct), which the
spec adopts as the intended policy and which makes the sum-based variant
a code bug. -/
theorem c6_frontend_init_mints_sum_not_sqrt :
    (FrontLP.process_initialize_pool true 1 2 7 7 255 0 true 3 1000 4000
        [true, true, true, true]).2 =
      .ok { is_initialized := 1, token_a_mint := 1, token_b_mint := 2,
            token_a_reserve := 1000, token_b_reserve := 4000, lp_mint := 3,
            lp_supply := 5000, bump_seed := 255 }
    ∧ (5000 : Nat) ≠ Nat.sqrt (1000 * 4000)
    ∧ (MainLP.process_initialize_pool true 7 7 255
        { is_initialized := false, token_a_mint := 0, token_b_mint := 0,
          token_a_reserve := 0, token_b_reserve := 0, lp_mint := 0,
          lp_supply := 0, bump_seed := 0 } true 1 2 3 1000 4000
        [true, true, true, true]).2 =
      .ok { is_initialized := true, token_a_mint := 1, token_b_mint := 2,
            token_a_reserve := 1000, token_b_reserve := 4000, lp_mint := 3,
            lp_supply := 2000, bump_seed := 255 } := by
  have hsq : Nat.sqrt (1000 * 4000) = 2000 := by
    have h : (1000 * 4000 : Nat) = 2000 * 2000 := by norm_num
    rw [h, Nat.sqrt_eq]
  refine ⟨rfl, by rw [hsq]; norm_num, ?_⟩
  simp only [MainLP.process_initialize_pool]
  norm_num [cpi, hsq]

/-- C7 (counterexample).  The claim quantifies over *every* initialized
pool state and every accepted `lp_amount`.  Removing the entire share
supply (`lp_amount = lp_supply = 1`) from a pool recorded at reserves
(100, 100) is accepted and pays out (100, 100); re-adding exactly those
amounts hits `process_add_liquidity`'s `lp_supply == 0` fallback, which
mints `sqrt(100 * 100) = 100` shares — 100 shares for the 1 burned, a
free-mint round trip.  (In the source the fallback is
`(100.0 * 100.0).sqrt() as u64`, exactly 100 in f64 arithmetic.) -/
theorem c7_roundtrip_free_mint_counterexample :
    (MainLP.process_remove_liquidity true
      { is_initialized := true, token_a_mint := 1, token_b_mint := 2,
        token_a_reserve := 100, token_b_reserve := 100, lp_mint := 3,
        lp_supply := 1, bump_seed := 255 } 1 1 [true, true, true]).2 =
      .ok ({ is_initialized := true, token_a_mint := 1, token_b_mint := 2,
             token_a_reserve := 0, token_b_reserve := 0, lp_mint := 3,
             lp_supply := 0, bump_seed := 255 }, 100, 100)
    ∧ (MainLP.process_add_liquidity true
      { is_initialized := true, token_a_mint := 1, token_b_mint := 2,
        token_a_reserve := 0, token_b_reserve := 0, lp_mint := 3,
        lp_supply := 0, bump_seed := 255 } 0 100 100 [true, true, true]).2 =
      .ok ({ is_initialized := true, token_a_mint := 1, token_b_mint := 2,
             token_a_reserve := 100, token_b_reserve := 100, lp_mint := 3,
             lp_supply := 100, bump_seed := 255 }, 100)
    ∧ ¬(100 ≤ 1) := by
  have hm : MainLP.addMintedShares
      { is_initialized := true, token_a_mint := 1, token_b_mint := 2,
        token_a_reserve := 0, token_b_reserve := 0, lp_mint := 3,
        lp_supply := 0, bump_seed := 255 } 0 100 100 = 100 := by
    have hsq : Nat.sqrt 10000 = 100 := by
      have h : (10000 : Nat) = 100 * 100 := by norm_num
      rw [h, Nat.sqrt_eq]
    unfold MainLP.addMintedShares
    norm_num [hsq]
  refine ⟨rfl, ?_, by norm_num⟩
  rw [MainLP.process_add_liquidity, hm]
  norm_num [cpi, U64]

/-- C7 (amended: the removal must leave a nonzero share supply, i.e.
`lp_amount < lp_supply`; the counterexample above forces this proviso).
Burning `lp` of `S` outstanding shares and immediately re-depositing the
exact payout amounts — against the updated pool record and the post-burn
mint supply `S - lp` — mints at most `lp` shares. -/
theorem c7_remove_then_add_mints_at_most_burned
    (pool : PoolState) (S lp : Nat) (o1 o2 : List Bool)
    (pool' : PoolState) (aOut bOut : Nat) (pool2 : PoolState) (m : Nat)
    (hra : pool.token_a_reserve < U64) (hrb : pool.token_b_reserve < U64)
    (hlt : lp < S)
    (hrem : (MainLP.process_remove_liquidity true pool S lp o1).2 = .ok (pool', aOut, bOut))
    (hadd : (MainLP.process_add_liquidity true pool' (S - lp) aOut bOut o2).2
      = .ok (pool2, m)) :
    m ≤ lp := by
  obtain ⟨hinit, hlp0, hS0, haO, hbO, hr⟩ := removeLiq_ok_inv _ _ _ _ _ _ hrem
  obtain ⟨hinit2, haO2, hbO2, hm0, hr2⟩ := addLiq_ok_inv _ _ _ _ _ _ _ hadd
  have hS : 0 < S := Nat.pos_of_ne_zero hS0
  injection hr with hrPool hrRest
  injection hrRest with hrA hrB
  have hdivA_le : lp * pool.token_a_reserve / S ≤ pool.token_a_reserve := by
    calc lp * pool.token_a_reserve / S ≤ S * pool.token_a_reserve / S :=
          Nat.div_le_div_right (Nat.mul_le_mul_right _ (Nat.le_of_lt hlt))
      _ = pool.token_a_reserve := Nat.mul_div_cancel_left _ hS
  have haEq : MainLP.removeAmountAOut pool S lp = lp * pool.token_a_reserve / S := by
    unfold MainLP.removeAmountAOut
    exact Nat.mod_eq_of_lt (lt_of_le_of_lt hdivA_le hra)
  have hta : 0 < pool.token_a_reserve := by
    rcases Nat.eq_zero_or_pos pool.token_a_reserve with h0 | h
    · exfalso
      apply haO
      unfold MainLP.removeAmountAOut
      simp [h0]
    · exact h
  have hdivA_lt : lp * pool.token_a_reserve / S < pool.token_a_reserve := by
    rw [Nat.div_lt_iff_lt_mul hS]
    calc lp * pool.token_a_reserve = pool.token_a_reserve * lp := Nat.mul_comm _ _
      _ < pool.token_a_reserve * S := (Nat.mul_lt_mul_left hta).mpr hlt
      _ = pool.token_a_reserve * S := rfl
  have hSlp : S - lp ≠ 0 := by omega
  injection hr2 with hrPool2 hrM
  have hm : m = MainLP.addMintedShares pool' (S - lp) aOut bOut := hrM
  rw [hm]
  unfold MainLP.addMintedShares
  rw [if_neg hSlp]
  have hstep1 : min (aOut * (S - lp) / pool'.token_a_reserve)
      (bOut * (S - lp) / pool'.token_b_reserve) % U64
      ≤ aOut * (S - lp) / pool'.token_a_reserve :=
    le_trans (Nat.mod_le _ _) (min_le_left _ _)
  refine le_trans hstep1 ?_
  rw [hrPool, hrA, haEq]
  simpa using readd_ratio_le pool.token_a_reserve S lp hS hlt hta

/-- Witness for the amended C7: a pool at reserves (100, 100) with 10
outstanding shares; removing 5 shares pays (50, 50), and re-adding
(50, 50) against supply 5 mints exactly 5 ≤ 5 shares. -/
theorem c7_remove_then_add_mints_at_most_burned_witness :
    (MainLP.process_remove_liquidity true
      { is_initialized := true, token_a_mint := 1, token_b_mint := 2,
        token_a_reserve := 100, token_b_reserve := 100, lp_mint := 3,
        lp_supply := 10, bump_seed := 255 } 10 5 [true, true, true]).2 =
      .ok ({ is_initialized := true, token_a_mint := 1, token_b_mint := 2,
             token_a_reserve := 50, token_b_reserve := 50, lp_mint := 3,
             lp_supply := 5, bump_seed := 255 }, 50, 50)
    ∧ (MainLP.process_add_liquidity true
      { is_initialized := true, token_a_mint := 1, token_b_mint := 2,
        token_a_reserve := 50, token_b_reserve := 50, lp_mint := 3,
        lp_supply := 5, bump_seed := 255 } (10 - 5) 50 50 [true, true, true]).2 =
      .ok ({ is_initialized := true, token_a_mint := 1, token_b_mint := 2,
             token_a_reserve := 100, token_b_reserve := 100, lp_mint := 3,
             lp_supply := 10, bump_seed := 255 }, 5)
    ∧ 5 ≤ 5 :=
  ⟨rfl, rfl,
    c7_remove_then_add_mints_at_most_burned
      { is_initialized := true, token_a_mint := 1, token_b_mint := 2,
        token_a_reserve := 100, token_b_reserve := 100, lp_mint := 3,
        lp_supply := 10, bump_seed := 255 } 10 5 [true, true, true] [true, true, true]
      { is_initialized := true, token_a_mint := 1, token_b_mint := 2,
        token_a_reserve := 50, token_b_reserve := 50, lp_mint := 3,
        lp_supply := 5, bump_seed := 255 } 50 50
      { is_initialized := true, token_a_mint := 1, token_b_mint := 2,
        token_a_reserve := 100, token_b_reserve := 100, lp_mint := 3,
        lp_supply := 10, bump_seed := 255 } 5
      (by norm_num [U64]) (by norm_num [U64]) (by norm_num) rfl rfl⟩

/-- C8.  While an auction is live it records at most one highest bidder
(a single record field), and the escrow accounting is exact: creation
establishes the invariant with an empty escrow, a successful `PlaceBid`
debits the bidder by `bid_amount` into the auction account and refunds
the caller-supplied previous-bidder destination with exactly the previous
`current_bid` (when a previous bidder exists), re-establishing
`escrow = current_bid`; settlement ends the auction, making the live
invariant vacuous.  `bk ≠ 0` states that a real bidder key is never the
`Pubkey::default()` sentinel. -/
theorem c8_escrow_equals_current_bid :
    (∀ (sig : Bool) (sk ak pk pda bs dl : Nat) (re : Bool) (now : Int) (sp : Nat)
        (et : Int) (a : Auction),
        (AuctionProg.process_initialize_auction sig sk ak pk pda bs dl re now sp et).2
          = .ok a →
        escrowInv a 0)
    ∧ (∀ (sig : Bool) (bk ak rk : Nat) (a : Auction) (esc : Nat) (now : Int) (bid : Nat)
        (o : List Bool) (a2 : Auction) (esc2 : Nat),
        escrowInv a esc → bk ≠ 0 →
        (AuctionProg.process_place_bid sig bk ak rk a esc now bid o).2 = .ok (a2, esc2) →
        escrowInv a2 esc2
        ∧ Effect.lamportMove bk ak bid
            ∈ (AuctionProg.process_place_bid sig bk ak rk a esc now bid o).1
        ∧ (a.highest_bidder ≠ 0 →
            Effect.lamportMove ak rk a.current_bid
              ∈ (AuctionProg.process_place_bid sig bk ak rk a esc now bid o).1))
    ∧ (∀ (sig : Bool) (sk ak sk2 : Nat) (a : Auction) (esc : Nat) (now : Int)
        (o : List Bool) (a2 : Auction) (esc2 : Nat),
        (AuctionProg.process_end_auction sig sk ak sk2 a esc now o).2 = .ok (a2, esc2) →
        escrowInv a2 esc2) := by
  refine ⟨?_, ?_, ?_⟩
  · intro sig sk ak pk pda bs dl re now sp et a h
    simp only [AuctionProg.process_initialize_auction] at h
    split_ifs at h <;> simp_all
    rw [← h]
    simp [escrowInv]
  · intro sig bk ak rk a esc now bid o a2 esc2 hinv hbk h
    obtain ⟨hend, hlt, hr, htr⟩ := placeBid_ok_inv _ _ _ _ _ _ _ _ _ _ h
    injection hr with h1 h2
    subst h1
    subst h2
    have hescrow := hinv hend
    refine ⟨?_, ?_, ?_⟩
    · intro _
      rcases Nat.eq_zero_or_pos a.highest_bidder with h0 | hpos
      · rw [if_neg hbk]
        rw [if_pos h0] at hescrow
        simp only [h0]
        simp
        omega
      · have hne : a.highest_bidder ≠ 0 := Nat.pos_iff_ne_zero.mp hpos
        rw [if_neg hbk]
        rw [if_neg hne] at hescrow
        simp only [if_pos hne]
        omega
    · rw [htr]
      rcases Nat.eq_zero_or_pos a.highest_bidder with h0 | hpos
      · simp [h0]
      · simp [Nat.pos_iff_ne_zero.mp hpos]
    · intro hne
      rw [htr, if_pos hne]
      simp
  · intro sig sk ak sk2 a esc now o a2 esc2 h
    have hended := endAuction_ok_inv _ _ _ _ _ _ _ _ _ h
    intro hf
    simp only at hended
    rw [hended] at hf
    cases hf

/-- Witness for C8: outbidding a recorded highest bidder 11 holding the
150 escrow with a 151 bid re-establishes the invariant at escrow 151 and
emits both lamport moves. -/
theorem c8_escrow_equals_current_bid_witness :
    escrowInv
      { property_mint := 9, seller := 5, start_price := 100, current_bid := 150,
        highest_bidder := 11, start_time := 0, end_time := 1000, ended := false,
        bump_seed := 254 } 150
    ∧ (escrowInv
        { property_mint := 9, seller := 5, start_price := 100, current_bid := 151,
          highest_bidder := 12, start_time := 0, end_time := 1000, ended := false,
          bump_seed := 254 } 151
      ∧ Effect.lamportMove 12 20 151
          ∈ (AuctionProg.process_place_bid true 12 20 11
              { property_mint := 9, seller := 5, start_price := 100, current_bid := 150,
                highest_bidder := 11, start_time := 0, end_time := 1000, ended := false,
                bump_seed := 254 } 150 500 151 [true]).1
      ∧ ((11 : Nat) ≠ 0 →
          Effect.lamportMove 20 11 150
            ∈ (AuctionProg.process_place_bid true 12 20 11
                { property_mint := 9, seller := 5, start_price := 100, current_bid := 150,
                  highest_bidder := 11, start_time := 0, end_time := 1000, ended := false,
                  bump_seed := 254 } 150 500 151 [true]).1)) :=
  ⟨by simp [escrowInv],
    c8_escrow_equals_current_bid.2.1 true 12 20 11
      { property_mint := 9, seller := 5, start_price := 100, current_bid := 150,
        highest_bidder := 11, start_time := 0, end_time := 1000, ended := false,
        bump_seed := 254 } 150 500 151 [true]
      { property_mint := 9, seller := 5, start_price := 100, current_bid := 151,
        highest_bidder := 12, start_time := 0, end_time := 1000, ended := false,
        bump_seed := 254 } 151
      (by simp [escrowInv]) (by norm_num) rfl⟩

/-- C9.  For a signed bid on a live auction (not ended, started, before
`end_time`), `PlaceBid` fails with `BidTooLow` precisely when
`bid_amount ≤ current_bid`: equality is rejected, and a strictly greater
bid is never rejected on that ground. -/
theorem c9_bid_too_low_iff (bk ak rk : Nat) (a : Auction) (esc : Nat) (now : Int)
    (bid : Nat) (o : List Bool)
    (hEnd : a.ended = false) (hStart : a.start_time ≤ now) (hClose : now < a.end_time) :
    ((AuctionProg.process_place_bid true bk ak rk a esc now bid o).2
        = .error AuctionErr.bidTooLow) ↔ bid ≤ a.current_bid := by
  simp only [AuctionProg.process_place_bid]
  simp only [hEnd, not_lt.mpr hStart, not_le.mpr hClose, if_false]
  split_ifs <;> simp_all

/-- Witness for C9: with `current_bid = 150`, a bid of exactly 150 on a
live auction fails with `BidTooLow`. -/
theorem c9_bid_too_low_iff_witness :
    ((AuctionProg.process_place_bid true 12 20 11
        { property_mint := 9, seller := 5, start_price := 100, current_bid := 150,
          highest_bidder := 11, start_time := 0, end_time := 1000, ended := false,
          bump_seed := 254 } 150 500 150 [true]).2
      = .error AuctionErr.bidTooLow) ↔ (150 : Nat) ≤ 150 :=
  c9_bid_too_low_iff 12 20 11
    { property_mint := 9, seller := 5, start_price := 100, current_bid := 150,
      highest_bidder := 11, start_time := 0, end_time := 1000, ended := false,
      bump_seed := 254 } 500 500 150 [true] rfl (by norm_num) (by norm_num)

/-- C10.  Under the claim's assumptions — the record's `lp_supply` equals
the LP mint's supply `S` and `lp ≤ S` — both proportional payouts are
bounded by their reserves and the burned amount by the recorded supply,
so the three final u64 decrements of `process_remove_liquidity` are exact
(no underflow): on any successful removal the updated record's fields
plus the amounts removed reconstruct the original record's fields. -/
theorem c10_remove_liquidity_no_underflow (pool : PoolState) (S lp : Nat)
    (hrec : pool.lp_supply = S) (hS : 0 < S) (hlp : lp ≤ S) :
    MainLP.removeAmountAOut pool S lp ≤ pool.token_a_reserve
    ∧ MainLP.removeAmountBOut pool S lp ≤ pool.token_b_reserve
    ∧ lp ≤ pool.lp_supply
    ∧ (∀ o r, (MainLP.process_remove_liquidity true pool S lp o).2 = .ok r →
        r.1.token_a_reserve + r.2.1 = pool.token_a_reserve
        ∧ r.1.token_b_reserve + r.2.2 = pool.token_b_reserve
        ∧ r.1.lp_supply + lp = pool.lp_supply) := by
  have hA : MainLP.removeAmountAOut pool S lp ≤ pool.token_a_reserve := by
    unfold MainLP.removeAmountAOut
    refine le_trans (Nat.mod_le _ _) ?_
    calc lp * pool.token_a_reserve / S ≤ S * pool.token_a_reserve / S :=
          Nat.div_le_div_right (Nat.mul_le_mul_right _ hlp)
      _ = pool.token_a_reserve := Nat.mul_div_cancel_left _ hS
  have hB : MainLP.removeAmountBOut pool S lp ≤ pool.token_b_reserve := by
    unfold MainLP.removeAmountBOut
    refine le_trans (Nat.mod_le _ _) ?_
    calc lp * pool.token_b_reserve / S ≤ S * pool.token_b_reserve / S :=
          Nat.div_le_div_right (Nat.mul_le_mul_right _ hlp)
      _ = pool.token_b_reserve := Nat.mul_div_cancel_left _ hS
  have hL : lp ≤ pool.lp_supply := hrec ▸ hlp
  refine ⟨hA, hB, hL, ?_⟩
  intro o r h
  obtain ⟨_, _, _, _, _, hr⟩ := removeLiq_ok_inv _ _ _ _ _ _ h
  rw [hr]
  refine ⟨Nat.sub_add_cancel hA, Nat.sub_add_cancel hB, Nat.sub_add_cancel hL⟩

/-- Witness for C10: removing 500 of 2000 shares from a pool at reserves
(1000, 4000) pays (250, 1000), and the decremented record plus the
payouts reconstruct the original record. -/
theorem c10_remove_liquidity_no_underflow_witness :
    MainLP.removeAmountAOut
      { is_initialized := true, token_a_mint := 1, token_b_mint := 2,
        token_a_reserve := 1000, token_b_reserve := 4000, lp_mint := 3,
        lp_supply := 2000, bump_seed := 255 } 2000 500 ≤ 1000
    ∧ MainLP.removeAmountBOut
      { is_initialized := true, token_a_mint := 1, token_b_mint := 2,
        token_a_reserve := 1000, token_b_reserve := 4000, lp_mint := 3,
        lp_supply := 2000, bump_seed := 255 } 2000 500 ≤ 4000
    ∧ (500 : Nat) ≤ 2000
    ∧ (∀ o r, (MainLP.process_remove_liquidity true
        { is_initialized := true, token_a_mint := 1, token_b_mint := 2,
          token_a_reserve := 1000, token_b_reserve := 4000, lp_mint := 3,
          lp_supply := 2000, bump_seed := 255 } 2000 500 o).2 = .ok r →
        r.1.token_a_reserve + r.2.1 = 1000
        ∧ r.1.token_b_reserve + r.2.2 = 4000
        ∧ r.1.lp_supply + 500 = 2000) :=
  c10_remove_liquidity_no_underflow
    { is_initialized := true, token_a_mint := 1, token_b_mint := 2,
      token_a_reserve := 1000, token_b_reserve := 4000, lp_mint := 3,
      lp_supply := 2000, bump_seed := 255 } 2000 500 rfl (by norm_num) (by norm_num)

/-- Witness for the amended C2: the swap of 100 into reserves (1000, 4000)
pays exactly `4000 - floor(1000 * 4000 / 1100) = 364`. -/
theorem c2_swap_pays_constant_product_output_witness :
    (MainLP.process_swap_a_for_b true
      { is_initialized := true, token_a_mint := 1, token_b_mint := 2,
        token_a_reserve := 1000, token_b_reserve := 4000, lp_mint := 3,
        lp_supply := 2000, bump_seed := 255 } 100 [true, true]).2 =
      .ok ({ is_initialized := true, token_a_mint := 1, token_b_mint := 2,
             token_a_reserve := 1100, token_b_reserve := 3636, lp_mint := 3,
             lp_supply := 2000, bump_seed := 255 }, 364)
    ∧ (364 : Nat) = 4000 - 1000 * 4000 / (1000 + 100) :=
  ⟨rfl, by
    have h := (c2_swap_pays_constant_product_output
      { is_initialized := true, token_a_mint := 1, token_b_mint := 2,
        token_a_reserve := 1000, token_b_reserve := 4000, lp_mint := 3,
        lp_supply := 2000, bump_seed := 255 } 100 [true, true] rfl (by norm_num)
      (by norm_num) (by norm_num) (by norm_num [U64]) (by norm_num [U64])).2.1
      ({ is_initialized := true, token_a_mint := 1, token_b_mint := 2,
         token_a_reserve := 1100, token_b_reserve := 3636, lp_mint := 3,
         lp_supply := 2000, bump_seed := 255 }, 364) rfl
    simpa using h⟩
